import Mathlib

/-!
Verification of the task-utils `TaskProcessor.py` module.

The Python source is shallowly embedded: Python values that flow through the
validator are modelled by `PyVal`, the filesystem queries (`os.path.realpath`,
`os.path.isfile`, `os.path.isdir`) by an abstract `FS` record, and every
fallible Python function (one that may raise) returns `Except String`.
Each definition carries a reference to the source lines it embeds.
-/

/-- Python `str.startswith`, on the underlying character lists (Lean's
built-in `String.startsWith` is not kernel-reducible). -/
def strStartsWith (s pre : String) : Bool := pre.data.isPrefixOf s.data

/-- Python `str.endswith`, on the underlying character lists. -/
def strEndsWith (s suf : String) : Bool := suf.data.isSuffixOf s.data

/-- Model of the Python values handled by the validator.  Following Python,
`bool` is a subtype of `int` (`isinstance(True, int)` holds), which the
numeric checks below take into account.  Floats are modelled as rationals,
which is faithful for every value the validator's range checks compare. -/
inductive PyVal where
  | none
  | bool (b : Bool)
  | int (n : Int)
  | float (x : Rat)
  | str (s : String)
  | list (xs : List PyVal)
  | dict (entries : List (String × PyVal))

/-- Numeric value of a Python object, if it is a number (`bool` counts as
0 or 1, as in Python). -/
def pyNumVal : PyVal → Option Rat
  | .bool b => some (if b then 1 else 0)
  | .int n => some (n : Rat)
  | .float x => some x
  | _ => Option.none

/-- Integer value of a Python object that `isinstance(-, int)` accepts. -/
def pyIntVal : PyVal → Option Int
  | .bool b => some (if b then 1 else 0)
  | .int n => some n
  | _ => Option.none

/-- The underlying string of a Python string (only used after an
`isinstance(-, basestring)` check has succeeded). -/
def pyStrVal : PyVal → String
  | .str s => s
  | _ => ""

/-- The underlying element list of a Python list (only used after an
`isinstance(-, list)` check has succeeded). -/
def pyListVal : PyVal → List PyVal
  | .list xs => xs
  | _ => []

/-- Abstract filesystem: canonicalization and existence predicates.
`realpath` models `os.path.realpath`, `isfile` models `os.path.isfile`,
`isdir` models `os.path.isdir`. -/
structure FS where
  realpath : String → String
  isfile : String → Bool
  isdir : String → Bool

/-- `os.path.join(a, b)` for POSIX paths: an absolute second component
replaces the first, otherwise the components are joined with a single
separator. -/
def ospathJoin (a b : String) : String :=
  if strStartsWith b "/" then b
  else if a = "" || strEndsWith a "/" then a ++ b
  else a ++ "/" ++ b

/-- Being inside the directory tree rooted at `base`: the path is `base`
itself or lies strictly below it.  This is the specification-level notion of
"does not escape the task directory". -/
def inDirTree (base p : String) : Bool :=
  p == base || strStartsWith p (base ++ "/")

/-- `Validator.string` (TaskProcessor.py lines 97-108): type check plus
optional length bounds. -/
def Validator.string (v : PyVal) (min_len max_len : Option Nat) : Bool :=
  match v with
  | .str s =>
    (match min_len with | some m => decide (m ≤ s.length) | Option.none => true) &&
    (match max_len with | some m => decide (s.length ≤ m) | Option.none => true)
  | _ => false

/-- `Validator.file` (TaskProcessor.py lines 110-128): string check; when a
base directory is given, join, canonicalize with `realpath`, and require the
result to start with `base_dir` (the raw `str.startswith` test of line 125);
finally require an existing file. -/
def Validator.file (fs : FS) (path : PyVal) (base_dir : Option String) : Bool :=
  if ¬ Validator.string path Option.none Option.none then false
  else
    let s := pyStrVal path
    match base_dir with
    | Option.none => fs.isfile s
    | some b =>
      let joined := ospathJoin b s
      let real := fs.realpath joined
      if ¬ strStartsWith real b then false
      else fs.isfile real

/-- `Validator.dir` (TaskProcessor.py lines 130-148): same chokepoint as
`Validator.file` with the directory predicate. -/
def Validator.dir (fs : FS) (path : PyVal) (base_dir : Option String) : Bool :=
  if ¬ Validator.string path Option.none Option.none then false
  else
    let s := pyStrVal path
    match base_dir with
    | Option.none => fs.isdir s
    | some b =>
      let joined := ospathJoin b s
      let real := fs.realpath joined
      if ¬ strStartsWith real b then false
      else fs.isdir real

/-- A filesystem in which the task directory `/tasks/foo` has a sibling
directory `/tasks/foo-extra` holding the file `secret`.  Resolving
`/tasks/foo/../foo-extra/secret` canonicalizes, by plain `..` elimination,
to `/tasks/foo-extra/secret`; no other path is rewritten. -/
def fsEscape : FS where
  realpath := fun p =>
    if p = "/tasks/foo/../foo-extra/secret" then "/tasks/foo-extra/secret" else p
  isfile := fun p => p == "/tasks/foo-extra/secret"
  isdir := fun _ => false

/-- Last index of the character `c` in a list, if any. -/
def lastIdxOf (c : Char) : List Char → Option Nat
  | [] => Option.none
  | x :: xs =>
    match lastIdxOf c xs with
    | some i => some (i + 1)
    | Option.none => if x = c then some 0 else Option.none

/-- The extension produced by `os.path.splitext` for a bare file name (names
coming out of `os.walk` contain no path separator): the suffix from the last
dot on, except that a name whose characters before that dot are all dots
(such as `.bashrc` or `..`) has no extension. -/
def splitextExt (s : String) : String :=
  match lastIdxOf '.' s.data with
  | Option.none => ""
  | some d =>
    if (s.data.take d).any (fun ch => ch != '.') then String.mk (s.data.drop d) else ""

/-- `Constants.gen_check_ignore_exts` (TaskProcessor.py line 56). -/
def Constants.gen_check_ignore_exts : List String :=
  [".lyx", ".pdf", ".doc", ".docx", ".txt"]

/-- `Constants.gen_check_ignore_dirs` (TaskProcessor.py line 57). -/
def Constants.gen_check_ignore_dirs : List String := ["auto.gen"]

/-- `TaskProcessor.is_file_irrelevant` (TaskProcessor.py lines 1249-1259).
The first argument models the unused `root` parameter. -/
def TaskProcessor.is_file_irrelevant (_ : String) (filename : String) : Bool :=
  strStartsWith filename "." ||
    Constants.gen_check_ignore_exts.contains (splitextExt filename)

/-- `TaskProcessor.is_dir_irrelevant` (TaskProcessor.py lines 1261-1268).
The first argument models the unused `root` parameter. -/
def TaskProcessor.is_dir_irrelevant (_ : String) (dirname : String) : Bool :=
  strStartsWith dirname "." || Constants.gen_check_ignore_dirs.contains dirname

/-- One file reached by the `os.walk` traversal of the task directory:
`dirs` is the chain of directory names below the task directory leading to
the file, `name` its base name, `mtime` its modification time.  A file is
examined by the walk of `needs_generating` exactly when no directory on its
chain is pruned and the file itself is not skipped. -/
structure WalkFile where
  dirs : List String
  name : String
  mtime : Int

/-- Whether the staleness walk examines this file: every enclosing directory
survives the in-place pruning of `dirs[:]` (TaskProcessor.py lines 1237-1238)
and the file itself is not skipped (lines 1240-1242). -/
def relevantWalkFile (f : WalkFile) : Bool :=
  f.dirs.all (fun d => !TaskProcessor.is_dir_irrelevant "" d) &&
    !TaskProcessor.is_file_irrelevant "" f.name

/-- `TaskProcessor.needs_generating` (TaskProcessor.py lines 1214-1247).
`gen_error_exists` models `os.path.isfile(gen_error)`, `gen_ok_mtime` is
`some` of the ok marker's mtime when `os.path.isfile(gen_ok)` holds, and
`task_files` are the files reachable by `os.walk(task_dir)`.  The source
returns `True` at the first file newer than the marker, which equals the
`any` below. -/
def TaskProcessor.needs_generating (gen_error_exists : Bool)
    (gen_ok_mtime : Option Int) (task_files : List WalkFile) : Bool :=
  if gen_error_exists || gen_ok_mtime.isNone then true
  else
    match gen_ok_mtime with
    | Option.none => true
    | some last_ok_time =>
      task_files.any (fun f => relevantWalkFile f && decide (last_ok_time < f.mtime))

/-- `TaskProcessor.touch` (TaskProcessor.py lines 1180-1186) on a directory
modelled as a partial map from file name to modification time: the file now
exists with the current time `now`. -/
def touchFile (now : Int) (name : String) (d : String → Option Int) :
    String → Option Int :=
  fun n => if n = name then some now else d n

/-- `os.remove` on the directory model. -/
def removeFile (name : String) (d : String → Option Int) :
    String → Option Int :=
  fun n => if n = name then Option.none else d n

/-- `TaskProcessor.mark_error` (TaskProcessor.py lines 1188-1199): touch
`gen.error`, then remove `gen.ok` if it is present. -/
def TaskProcessor.mark_error (now : Int) (d : String → Option Int) :
    String → Option Int :=
  let d1 := touchFile now "gen.error" d
  if (d1 "gen.ok").isSome then removeFile "gen.ok" d1 else d1

/-- `TaskProcessor.mark_ok` (TaskProcessor.py lines 1201-1212): touch
`gen.ok`, then remove `gen.error` if it is present. -/
def TaskProcessor.mark_ok (now : Int) (d : String → Option Int) :
    String → Option Int :=
  let d1 := touchFile now "gen.ok" d
  if (d1 "gen.error").isSome then removeFile "gen.error" d1 else d1

/-- A generation directory holding only the ok marker, with mtime 5. -/
def genDirOkOnly : String → Option Int :=
  fun n => if n = "gen.ok" then some 5 else Option.none

/-- The externally observable actions `generate_all` can perform, in program
order (TaskProcessor.py lines 962-986): marking the error sentinel, writing
the safe YAML snapshot, compiling the checker, generating the testcases,
marking the ok sentinel.  An empty action list means the invocation returned
without touching any file or spawning any process. -/
inductive GenStep where
  | markError
  | writeYaml
  | compileChecker
  | generateTestcases
  | markOk
deriving DecidableEq

/-- `TaskProcessor.generate_all` (TaskProcessor.py lines 962-986), abstracted
to the list of actions performed: if `needs_generating` is false the function
returns at once and performs none of them. -/
def TaskProcessor.generate_all (gen_error_exists : Bool) (gen_ok_mtime : Option Int)
    (task_files : List WalkFile) : List GenStep :=
  if TaskProcessor.needs_generating gen_error_exists gen_ok_mtime task_files then
    [GenStep.markError, GenStep.writeYaml, GenStep.compileChecker,
     GenStep.generateTestcases, GenStep.markOk]
  else []

/-- Outcome of one spawned subprocess: exit code and what it wrote to
standard output and standard error. -/
structure ProcResult where
  returncode : Int
  stdout : String
  stderr : String

/-- `TaskProcessor.run` (TaskProcessor.py lines 1105-1121), given the
subprocess outcome: a non-zero return code raises when `fail_abort` is set
(the default used by `compile_cpp`), otherwise the triple is returned. -/
def TaskProcessor.run (result : ProcResult) (fail_abort : Bool) :
    Except String (Int × String × String) :=
  if result.returncode ≠ 0 ∧ fail_abort = true then
    Except.error "Command returned non-zero"
  else Except.ok (result.returncode, result.stdout, result.stderr)

/-- `TaskProcessor.run_io` (TaskProcessor.py lines 1123-1166): same
promotion of a non-zero exit code to an exception; the redirected streams
are part of `ProcResult`. -/
def TaskProcessor.run_io (result : ProcResult) (fail_abort : Bool) :
    Except String (Int × String × String) :=
  if result.returncode ≠ 0 ∧ fail_abort = true then
    Except.error "Command returned non-zero"
  else Except.ok (result.returncode, result.stdout, result.stderr)

/-- The mapping returned by the authoring callback `generate_testcase` of
the task module: optional `input` and `output` strings. -/
structure TestcaseIO where
  input : Option String
  output : Option String

/-- `TaskProcessor._generate_testcase` (TaskProcessor.py lines 800-840),
abstracted to the contents written next to the deterministic file names:
`generator` is `some r` when an output generator was compiled
(`self.generator` set), `r` being the behavior of running it on the input
file — `run_io` redirects its standard output into the output file and
promotes a non-zero exit to an exception.  Returns the pair
(input-file content, output-file content) on success. -/
def TaskProcessor.generate_testcase_files (tio : TestcaseIO)
    (generator : Option ProcResult) : Except String (String × String) :=
  match tio.input with
  | Option.none => Except.error "Testcase must contain input key"
  | some inp =>
    match tio.output with
    | some out => Except.ok (inp, out)
    | Option.none =>
      match generator with
      | Option.none =>
        Except.error "Testcase did not specify output, but an output generator was not found"
      | some g =>
        match TaskProcessor.run_io g true with
        | Except.error e => Except.error e
        | Except.ok _ => Except.ok (inp, g.stdout)

/-- Zero-padding of the `%02d` format for a natural number: one leading zero
for values below 10, the full decimal rendering otherwise. -/
def fmt02d (n : Nat) : String :=
  if n < 10 then "0" ++ toString n else toString n

/-- `Constants.input_namer` (TaskProcessor.py lines 59-64).  The third
parameter models the unused optional argument. -/
def Constants.input_namer (subtask_index subtask_testcase_index : Nat) (_ : Nat) :
    String :=
  fmt02d (subtask_index + 1) ++ "." ++ fmt02d (subtask_testcase_index + 1) ++ ".in"

/-- `Constants.output_namer` (TaskProcessor.py lines 66-72). -/
def Constants.output_namer (subtask_index subtask_testcase_index : Nat) (_ : Nat) :
    String :=
  fmt02d (subtask_index + 1) ++ "." ++ fmt02d (subtask_testcase_index + 1) ++ ".out"

/-- Whether a file name consists of exactly two digits, a dot, exactly two
digits, and the given suffix — the shape the claim asserts for the default
namers. -/
def isExactTwoDigitForm (s : String) (suffix : String) : Bool :=
  match s.data with
  | c1 :: c2 :: c3 :: c4 :: c5 :: rest =>
    c1.isDigit && c2.isDigit && (c3 == '.') && c4.isDigit && c5.isDigit &&
      (String.mk rest == suffix)
  | _ => false

/-- The exactly-two-digit decimal rendering of a number below 100. -/
def twoDigitString (n : Nat) : String :=
  String.mk [Nat.digitChar (n / 10), Nat.digitChar (n % 10)]

/-- `Constants.min_subtask_score` (TaskProcessor.py line 44). -/
def Constants.min_subtask_score : Rat := 0

/-- `Constants.max_subtask_score` (TaskProcessor.py line 45). -/
def Constants.max_subtask_score : Rat := 100

/-- `Constants.min_subtask_testcases` (TaskProcessor.py line 40). -/
def Constants.min_subtask_testcases : Rat := 1

/-- `Constants.max_subtask_testcases` (TaskProcessor.py line 41). -/
def Constants.max_subtask_testcases : Rat := 200

/-- `Validator.number` (TaskProcessor.py lines 80-95).  As in Python,
`isinstance(-, int)` also accepts booleans. -/
def Validator.number (v : PyVal) (allow_float : Bool)
    (min_val max_val : Option Rat) : Bool :=
  let is_int : Bool := match v with | .int _ => true | .bool _ => true | _ => false
  let is_float : Bool := match v with | .float _ => true | _ => false
  if !is_int && !is_float then false
  else if !is_int && !allow_float then false
  else
    let x := (pyNumVal v).getD 0
    (match min_val with | some m => decide (m ≤ x) | Option.none => true) &&
    (match max_val with | some m => decide (x ≤ m) | Option.none => true)

/-- `Validator.dict` (TaskProcessor.py lines 150-161). -/
def Validator.dict (v : PyVal) (min_len max_len : Option Nat) : Bool :=
  match v with
  | .dict entries =>
    (match min_len with | some m => decide (m ≤ entries.length) | Option.none => true) &&
    (match max_len with | some m => decide (entries.length ≤ m) | Option.none => true)
  | _ => false

/-- `Validator.list` (TaskProcessor.py lines 163-174). -/
def Validator.list (v : PyVal) (min_len max_len : Option Nat) : Bool :=
  match v with
  | .list xs =>
    (match min_len with | some m => decide (m ≤ xs.length) | Option.none => true) &&
    (match max_len with | some m => decide (xs.length ≤ m) | Option.none => true)
  | _ => false

/-- `Validator.numbers_list` (TaskProcessor.py lines 201-212): a list within
the given length bounds whose every element passes `Validator.number` with
its default `allow_float=False` and the given range. -/
def Validator.numbers_list (v : PyVal) (min_list_len max_list_len : Option Nat)
    (min_val max_val : Option Rat) : Bool :=
  if ¬ Validator.list v min_list_len max_list_len then false
  else (pyListVal v).all (fun x => Validator.number x false min_val max_val)

/-- `Validator.assert_value` (TaskProcessor.py lines 233-272) specialized to
the tag `"file"`: raise when `Validator.file` fails. -/
def assertValueFile (fs : FS) (v : PyVal) (base_dir : Option String) :
    Except String Unit :=
  if Validator.file fs v base_dir then Except.ok ()
  else Except.error "should be a valid file"

/-- `Validator.assert_value` specialized to the tag `"dict"`. -/
def assertValueDict (v : PyVal) : Except String Unit :=
  if Validator.dict v Option.none Option.none then Except.ok ()
  else Except.error "should be a valid dict"

/-- `Validator.assert_value` specialized to the tag `"number"`. -/
def assertValueNumber (v : PyVal) (allow_float : Bool)
    (min_val max_val : Option Rat) : Except String Unit :=
  if Validator.number v allow_float min_val max_val then Except.ok ()
  else Except.error "should be a valid number"

/-- `Validator.assert_value` specialized to the tag `"numbers_list"`. -/
def assertValueNumbersList (v : PyVal) (min_list_len max_list_len : Option Nat)
    (min_val max_val : Option Rat) : Except String Unit :=
  if Validator.numbers_list v min_list_len max_list_len min_val max_val then
    Except.ok ()
  else Except.error "should be a valid numbers_list"

/-- The value of the `existing_testcases_format` parameter: in authoring
mode a dictionary of two naming functions (of subtask index, in-subtask
index and global index); in safe mode, the boolean written by the
serializer.  Only the dictionary form passes the `isinstance(-, dict)` test
of `assert_testcase`. -/
inductive ExistingFormat where
  | namers (input output : Nat → Nat → Nat → String)
  | marker (b : Bool)

/-- A subtask description as a dictionary of its schema fields; a field is
`Option.none` when the key is absent.  Subtasks that are not dictionaries
are rejected by `assert_subtask` before any field is read and cannot carry
a `contains` entry, so the model ranges over dictionary subtasks. -/
structure RawSubtask where
  score : Option PyVal
  contains : Option PyVal
  testcases : Option PyVal
  num_testcases : Option PyVal

/-- The parts of the task-parameters dictionary read by subtask and
testcase validation. -/
structure VParams where
  existing_testcases_format : Option ExistingFormat
  subtasks : List RawSubtask

/-- Python list indexing: `IndexError` when out of range. -/
def getIndex {α : Type} (l : List α) (i : Nat) : Except String α :=
  match l.get? i with
  | some x => Except.ok x
  | Option.none => Except.error "IndexError"

/-- Python subscript `v[i]` with an integer index. -/
def pyIndex (v : PyVal) (i : Nat) : Except String PyVal :=
  match v with
  | .list xs => getIndex xs i
  | .str s =>
    match s.data.get? i with
    | some c => Except.ok (.str (String.mk [c]))
    | Option.none => Except.error "IndexError"
  | _ => Except.error "TypeError"

/-- Python subscript `d[key]` on a dictionary: `KeyError` when absent. -/
def pyDictGet (v : PyVal) (key : String) : Except String PyVal :=
  match v with
  | .dict entries =>
    match entries.lookup key with
    | some x => Except.ok x
    | Option.none => Except.error "KeyError"
  | _ => Except.error "TypeError"

/-- `Validator.assert_testcase` (TaskProcessor.py lines 486-532).  In the
existing-testcases branch the two names produced by the naming functions are
checked as files under the task directory; in the post-generation branch
(lines 521-528) the `input` and `output` entries of the testcase dictionary
are checked — also with `base_dir=task_dir`; otherwise the testcase need
only be a dictionary. -/
def Validator.assert_testcase (fs : FS) (p : VParams)
    (subtask_index subtask_testcase_index total_testcase_index : Nat)
    (task_dir : String) (gen_dir : Option String) : Except String Unit :=
  match p.existing_testcases_format with
  | some (.namers inN outN) => do
    let input_name := inN subtask_index subtask_testcase_index total_testcase_index
    let output_name := outN subtask_index subtask_testcase_index total_testcase_index
    assertValueFile fs (.str input_name) (some task_dir)
    assertValueFile fs (.str output_name) (some task_dir)
  | _ => do
    let st ← getIndex p.subtasks subtask_index
    let testcases ← match st.testcases with
      | some v => Except.ok v
      | Option.none => Except.error "KeyError"
    let testcase ← pyIndex testcases subtask_testcase_index
    match gen_dir with
    | some _ => do
      let input_name ← pyDictGet testcase "input"
      let output_name ← pyDictGet testcase "output"
      assertValueFile fs input_name (some task_dir)
      assertValueFile fs output_name (some task_dir)
    | Option.none => assertValueDict testcase

/-- `Validator.assert_subtask` (TaskProcessor.py lines 534-595): score
check; `contains` checked as a numbers list of length at most
`subtask_index` with values in `[1, subtask_index]`; testcase count taken
from `num_testcases` (existing mode) or the length of the `testcases` list;
count range check; per-testcase loop threading the accumulated global
index.  Returns the number of testcases. -/
def Validator.assert_subtask (fs : FS) (p : VParams)
    (subtask_index acc_testcases : Nat) (task_dir : String)
    (gen_dir : Option String) : Except String Nat := do
  let subtask ← getIndex p.subtasks subtask_index
  let score ← match subtask.score with
    | some v => Except.ok v
    | Option.none => Except.error "Subtask must specify score"
  assertValueNumber score false (some Constants.min_subtask_score)
    (some Constants.max_subtask_score)
  let _ ← match subtask.contains with
    | some other_subtasks =>
      assertValueNumbersList other_subtasks Option.none (some subtask_index)
        (some 1) (some (subtask_index : Rat))
    | Option.none => Except.ok ()
  let num_testcases ←
    if p.existing_testcases_format.isSome then
      match subtask.num_testcases with
      | some v => Except.ok v
      | Option.none => Except.error "Subtask must contain key num_testcases"
    else
      match subtask.testcases with
      | Option.none => Except.error "Subtask must contain key testcases"
      | some v =>
        match v with
        | .list xs => Except.ok (PyVal.int xs.length)
        | _ => Except.error "testcases should be a valid list"
  assertValueNumber num_testcases false (some Constants.min_subtask_testcases)
    (some Constants.max_subtask_testcases)
  let n : Nat := ((pyIntVal num_testcases).getD 0).toNat
  (List.range n).forM (fun index =>
    Validator.assert_testcase fs p subtask_index index (acc_testcases + index)
      task_dir gen_dir)
  Except.ok n

/-- A filesystem for the post-generation audit scenario: the task directory
`/task` holds `data.in` and `data.out`; the generation directory
`/task/auto.gen` holds nothing.  `realpath` is the identity (no symlinks,
no dot segments occur). -/
def fsAudit : FS where
  realpath := fun p => p
  isfile := fun p => p == "/task/data.in" || p == "/task/data.out"
  isdir := fun _ => true

/-- Task parameters for the audit scenario: no existing-testcases format,
one subtask with one testcase whose `input` / `output` entries name files
of the task directory. -/
def pAudit : VParams where
  existing_testcases_format := Option.none
  subtasks := [⟨some (PyVal.int 100), Option.none,
    some (PyVal.list [PyVal.dict
      [("input", PyVal.str "data.in"), ("output", PyVal.str "data.out")]]),
    Option.none⟩]

/-- A trivial filesystem, used where validation touches no file. -/
def fsEmpty : FS where
  realpath := fun p => p
  isfile := fun _ => false
  isdir := fun _ => false

/-- The second subtask of the witness parameters: score 100, containing the
first subtask, one opaque testcase. -/
def stContains : RawSubtask :=
  ⟨some (PyVal.int 100), some (PyVal.list [PyVal.int 1]),
    some (PyVal.list [PyVal.dict []]), Option.none⟩

/-- Witness parameters: two subtasks, the second declaring
`contains = [1]`. -/
def pContains : VParams where
  existing_testcases_format := Option.none
  subtasks :=
    [⟨some (PyVal.int 100), Option.none, some (PyVal.list [PyVal.dict []]),
      Option.none⟩,
     stContains]

/-- A naming strategy: 0-based subtask index, 0-based in-subtask testcase
index, and 0-based global testcase index to a file name. -/
def Namer : Type := Nat → Nat → Nat → String

/-- The two naming strategies held by an `existing_testcases_format`
dictionary under its `input` and `output` keys. -/
structure NamerPair where
  input : Namer
  output : Namer

/-- A subtask as the safe serializer reads it (validated parameters: the
`score` key is present; `num_testcases` is a validated integer count).
An absent optional key is `Option.none`. -/
structure SSubtask where
  score : PyVal
  testcases : Option (List PyVal)
  num_testcases : Option Nat
  contains : Option PyVal

/-- Task parameters as the safe serializer reads them.  `extra` carries
every top-level entry other than `existing_testcases_format` and
`subtasks`; the shallow copy `dict(self.params)` of line 880 preserves
those unchanged. -/
structure SParams where
  existing_testcases_format : Option NamerPair
  subtasks : List SSubtask
  extra : List (String × PyVal)

/-- A serialized subtask: the exact four keys written by lines 916-921. -/
structure SafeSubtask where
  score : PyVal
  testcases : List (String × String)
  num_testcases : Nat
  contains : PyVal

/-- The serializer's output mapping: `existing_testcases_format` is
`some true` exactly when the key was present in the input (line 886),
`extra` carries the untouched remaining top-level entries. -/
structure SafeParams where
  existing_testcases_format : Option Bool
  subtasks : List SafeSubtask
  extra : List (String × PyVal)

/-- The testcase count the serializer uses for one subtask (TaskProcessor.py
lines 903-907): the declared `num_testcases` in existing-testcases mode,
the length of the `testcases` list otherwise; `Option.none` models the
`KeyError` raised when the required key is missing. -/
def subtaskCount (existing : Bool) (st : SSubtask) : Option Nat :=
  if existing then st.num_testcases else st.testcases.map List.length

/-- The active input naming strategy (TaskProcessor.py lines 888-894): the
configured one in existing-testcases mode, the default otherwise. -/
def activeInputNamer (p : SParams) : Namer :=
  match p.existing_testcases_format with
  | some f => f.input
  | Option.none => Constants.input_namer

/-- The active output naming strategy (TaskProcessor.py lines 888-894). -/
def activeOutputNamer (p : SParams) : Namer :=
  match p.existing_testcases_format with
  | some f => f.output
  | Option.none => Constants.output_namer

/-- The subtask-rewriting loop of `_get_safe_yaml` (TaskProcessor.py lines
897-956): `sIdx` is the running subtask index, `acc` the accumulated
testcase count (`acc_testcases`); each testcase becomes the pair of joined
input and output paths at the running global index. -/
def safeSubtasksLoop (existing : Bool) (inN outN : Namer) (base : String) :
    List SSubtask → Nat → Nat → Option (List SafeSubtask)
  | [], _, _ => some []
  | st :: rest, sIdx, acc => do
    let num ← subtaskCount existing st
    let tcs := (List.range num).map (fun j =>
      (ospathJoin base (inN sIdx j (acc + j)),
       ospathJoin base (outN sIdx j (acc + j))))
    let tail ← safeSubtasksLoop existing inN outN base rest (sIdx + 1) (acc + num)
    some ({ score := st.score, testcases := tcs, num_testcases := num,
            contains := st.contains.getD (PyVal.list []) } :: tail)

/-- `TaskProcessor._get_safe_yaml` (TaskProcessor.py lines 870-960) up to
the final `yaml.safe_dump`: the safe mapping it builds.  The base directory
of the testcase paths is the task directory in existing-testcases mode and
the generation directory otherwise (lines 937-944). -/
def TaskProcessor.getSafeParams (p : SParams) (task_dir gen_dir : String) :
    Option SafeParams := do
  let existing := p.existing_testcases_format.isSome
  let base := if existing then task_dir else gen_dir
  let subs ← safeSubtasksLoop existing (activeInputNamer p) (activeOutputNamer p)
    base p.subtasks 0 0
  some { existing_testcases_format := if existing then some true else Option.none,
         subtasks := subs, extra := p.extra }

/-- The serialized subtask the specification predicts for the 0-based
subtask index `i` when `gOffset` testcases precede the subtask: score kept,
testcases replaced by the naming strategy's path pairs at consecutive
global indices, the count under `num_testcases`, and `contains` defaulting
to the empty list. -/
def mkSafeSubtask (existing : Bool) (inN outN : Namer) (base : String)
    (i gOffset : Nat) (st : SSubtask) : SafeSubtask :=
  let num := (subtaskCount existing st).getD 0
  { score := st.score,
    testcases := (List.range num).map (fun j =>
      (ospathJoin base (inN i j (gOffset + j)),
       ospathJoin base (outN i j (gOffset + j)))),
    num_testcases := num,
    contains := st.contains.getD (PyVal.list []) }

/-- Witness parameters for the serializer: authoring mode, one subtask with
one opaque testcase, one extra top-level entry. -/
def pSerial : SParams where
  existing_testcases_format := Option.none
  subtasks := [⟨PyVal.int 100, some [PyVal.dict []], Option.none, Option.none⟩]
  extra := [("type", PyVal.str "Batch")]

/-- C1, counterexample.  The claim asserts that every file-valued field whose
canonicalized path escapes the task directory is rejected; but for the task
directory `/tasks/foo` the candidate `../foo-extra/secret` canonicalizes to
`/tasks/foo-extra/secret`, which escapes the tree rooted at `/tasks/foo`,
and `Validator.file` nevertheless returns `True`, because the canonical path
begins with the characters `/tasks/foo`. -/
theorem validator_file_accepts_escaping_sibling :
    Validator.file fsEscape (PyVal.str "../foo-extra/secret") (some "/tasks/foo") = true ∧
    inDirTree "/tasks/foo"
      (fsEscape.realpath (ospathJoin "/tasks/foo" "../foo-extra/secret")) = false := by
  decide

/-- C1, amended.  `Validator.file(p, base_dir=b)` is a total Boolean function
(it returns `False` rather than raising on every failure), and it returns
`True` exactly when `p` is a string whose joined, canonicalized path starts
with the base directory exactly as supplied (a raw string-prefix test, not a
directory-tree test) and names an existing file. -/
theorem validator_file_false_cases (fs : FS) (b : String) (p : PyVal) :
    Validator.file fs p (some b) = true ↔
      ∃ s, p = PyVal.str s ∧
        strStartsWith (fs.realpath (ospathJoin b s)) b = true ∧
        fs.isfile (fs.realpath (ospathJoin b s)) = true := by
  constructor
  · intro h
    cases p <;> simp [Validator.file, Validator.string, pyStrVal] at h
    case str s =>
      refine ⟨s, rfl, ?_, ?_⟩
      · by_cases hpre : strStartsWith (fs.realpath (ospathJoin b s)) b = true
        · exact hpre
        · simp [hpre] at h
      · by_cases hpre : strStartsWith (fs.realpath (ospathJoin b s)) b = true
        · simpa [hpre] using h
        · simp [hpre] at h
  · rintro ⟨s, rfl, h1, h2⟩
    simp [Validator.file, Validator.string, pyStrVal, h1, h2]

/-- C2.  The Guard's containment check is literally
`realpath(join(base_dir, path)).startswith(base_dir)` with the base directory
exactly as supplied; consequently, for the base directory `/tasks/foo` and
the path `../foo-extra/secret`, whose canonical form `/tasks/foo-extra/secret`
lies outside the tree rooted at `/tasks/foo` but begins with it as a
character sequence, `Validator.file` returns `True` for an existing file
there. -/
theorem validator_file_prefix_check :
    (∀ (fs : FS) (b s : String),
      Validator.file fs (PyVal.str s) (some b) =
        (strStartsWith (fs.realpath (ospathJoin b s)) b &&
          fs.isfile (fs.realpath (ospathJoin b s)))) ∧
    Validator.file fsEscape (PyVal.str "../foo-extra/secret") (some "/tasks/foo") = true ∧
    strStartsWith (fsEscape.realpath (ospathJoin "/tasks/foo" "../foo-extra/secret"))
      "/tasks/foo" = true ∧
    inDirTree "/tasks/foo"
      (fsEscape.realpath (ospathJoin "/tasks/foo" "../foo-extra/secret")) = false ∧
    fsEscape.isfile
      (fsEscape.realpath (ospathJoin "/tasks/foo" "../foo-extra/secret")) = true := by
  refine ⟨?_, by decide, by decide, by decide, by decide⟩
  intro fs b s
  by_cases hpre : strStartsWith (fs.realpath (ospathJoin b s)) b = true <;>
    simp [Validator.file, Validator.string, pyStrVal, hpre]

/-- C3.  `needs_generating` returns true exactly when the error marker
exists, or the ok marker does not exist, or some file below the task
directory — reached without entering a directory whose name starts with `.`
or lies in the fixed ignore set, itself not starting with `.` and with an
extension outside the fixed ignore set — has modification time strictly
greater than the ok marker's. -/
theorem needs_generating_iff (e : Bool) (ok : Option Int) (files : List WalkFile) :
    TaskProcessor.needs_generating e ok files = true ↔
      e = true ∨ ok = Option.none ∨
        ∃ t f, ok = some t ∧ f ∈ files ∧
          (∀ d ∈ f.dirs,
            ¬(strStartsWith d "." = true ∨ d ∈ Constants.gen_check_ignore_dirs)) ∧
          ¬(strStartsWith f.name "." = true ∨
            splitextExt f.name ∈ Constants.gen_check_ignore_exts) ∧
          t < f.mtime := by
  cases e with
  | true => simp [TaskProcessor.needs_generating]
  | false =>
    cases ok with
    | none => simp [TaskProcessor.needs_generating]
    | some t =>
      simp [TaskProcessor.needs_generating, List.any_eq_true, relevantWalkFile,
            List.all_eq_true, TaskProcessor.is_dir_irrelevant,
            TaskProcessor.is_file_irrelevant, not_or, List.contains, and_assoc]

/-- C4, counterexample.  The claim states that the start-of-run step writes
the error marker "and removes nothing", leaving the ok marker unchanged when
present.  On a generation directory holding the ok marker, `mark_error`
deletes it: the ok marker is present before and gone after. -/
theorem mark_error_removes_ok_marker :
    genDirOkOnly "gen.ok" = some 5 ∧
    TaskProcessor.mark_error 10 genDirOkOnly "gen.ok" = Option.none := by
  decide

/-- C4, amended.  On the transition into a generation run, `mark_error`
touches the error marker (it exists afterwards with the current time),
removes the ok marker if present, and leaves every other file of the
generation directory unchanged. -/
theorem mark_error_effect (now : Int) (d : String → Option Int) (name : String) :
    TaskProcessor.mark_error now d name =
      if name = "gen.error" then some now
      else if name = "gen.ok" then Option.none
      else d name := by
  unfold TaskProcessor.mark_error touchFile removeFile
  by_cases h1 : name = "gen.error" <;> by_cases h2 : name = "gen.ok" <;>
    simp [h1, h2] <;> split <;>
      simp_all [Option.not_isSome_iff_eq_none]

/-- C5.  After a successful run — no error marker, ok marker present with
mtime `t`, and no non-ignored file of the task directory strictly newer than
`t` — an immediate second `generate_all` performs no action at all: no
marker is touched, no file written, no external process spawned. -/
theorem generate_all_idempotent (t : Int) (files : List WalkFile)
    (hfresh : ∀ f ∈ files, relevantWalkFile f = true → f.mtime ≤ t) :
    TaskProcessor.generate_all false (some t) files = [] := by
  have hng : TaskProcessor.needs_generating false (some t) files = false := by
    simp only [TaskProcessor.needs_generating, Bool.false_or, Option.isNone_some,
      Bool.false_eq_true, if_false, List.any_eq_false]
    intro f hf
    by_cases hr : relevantWalkFile f = true
    · have := hfresh f hf hr
      simp [hr]
      omega
    · simp [Bool.eq_false_iff.mpr hr]
  simp [TaskProcessor.generate_all, hng]

/-- C5, witness: a task directory holding a single relevant file older than
the ok marker triggers no second run. -/
theorem generate_all_idempotent_witness :
    (∀ f ∈ [WalkFile.mk [] "grader.cpp" 3],
      relevantWalkFile f = true → f.mtime ≤ 10) ∧
    TaskProcessor.generate_all false (some 10) [WalkFile.mk [] "grader.cpp" 3] = [] :=
  ⟨by decide, generate_all_idempotent 10 [WalkFile.mk [] "grader.cpp" 3] (by decide)⟩

/-- C6.  Generating one testcase fails exactly when the callback's mapping
lacks `input`, or lacks `output` with no output generator configured, or the
output-generator process exits non-zero; otherwise the input file receives
the returned input string and the output file the returned output string
(or the generator's standard output).  A compiler invocation, which goes
through `run` with `fail_abort` set, likewise turns a non-zero exit into a
fatal error. -/
theorem generate_testcase_error_conditions (tio : TestcaseIO)
    (generator : Option ProcResult) :
    ((∃ e, TaskProcessor.generate_testcase_files tio generator = Except.error e) ↔
      tio.input = Option.none ∨
      (tio.output = Option.none ∧ generator = Option.none) ∨
      (tio.output = Option.none ∧ ∃ g, generator = some g ∧ g.returncode ≠ 0)) ∧
    (∀ inp out, tio.input = some inp → tio.output = some out →
      TaskProcessor.generate_testcase_files tio generator = Except.ok (inp, out)) ∧
    (∀ inp g, tio.input = some inp → tio.output = Option.none →
      generator = some g → g.returncode = 0 →
      TaskProcessor.generate_testcase_files tio generator = Except.ok (inp, g.stdout)) ∧
    (∀ r : ProcResult, r.returncode ≠ 0 →
      ∃ e, TaskProcessor.run r true = Except.error e) := by
  refine ⟨?_, ?_, ?_, ?_⟩
  · cases htio : tio.input with
    | none => simp [TaskProcessor.generate_testcase_files, htio]
    | some inp =>
      cases hout : tio.output with
      | some out => simp [TaskProcessor.generate_testcase_files, htio, hout]
      | none =>
        cases hgen : generator with
        | none => simp [TaskProcessor.generate_testcase_files, htio, hout, hgen]
        | some g =>
          by_cases hrc : g.returncode = 0 <;>
            simp [TaskProcessor.generate_testcase_files, TaskProcessor.run_io,
                  htio, hout, hgen, hrc]
  · intro inp out hinp hout
    simp [TaskProcessor.generate_testcase_files, hinp, hout]
  · intro inp g hinp hout hgen hrc
    simp [TaskProcessor.generate_testcase_files, TaskProcessor.run_io,
          hinp, hout, hgen, hrc]
  · intro r hrc
    simp [TaskProcessor.run, hrc]

/-- C6, witness: a callback returning both strings writes them verbatim. -/
theorem generate_testcase_error_conditions_witness :
    TestcaseIO.input ⟨some "2\n1 2", some "3"⟩ = some "2\n1 2" ∧
    TaskProcessor.generate_testcase_files ⟨some "2\n1 2", some "3"⟩ Option.none =
      Except.ok ("2\n1 2", "3") :=
  ⟨rfl, (generate_testcase_error_conditions ⟨some "2\n1 2", some "3"⟩ Option.none).2.1
    "2\n1 2" "3" rfl rfl⟩

/-- C10, counterexample.  At the admissible 0-based subtask index 99 (the
schema allows 100 subtasks), `%02d` renders the 1-based subtask number 100
with three digits, so the name is not of the claimed
two-digit.two-digit form. -/
theorem input_namer_three_digits_at_subtask100 :
    Constants.input_namer 99 0 0 = "100.01.in" ∧
    isExactTwoDigitForm (Constants.input_namer 99 0 0) ".in" = false ∧
    Constants.output_namer 99 0 0 = "100.01.out" ∧
    isExactTwoDigitForm (Constants.output_namer 99 0 0) ".out" = false := by
  decide

/-- C10, amended.  For 1-based numbers up to 99 — that is, 0-based indices
`s, t < 99` — the default namers return the two numbers zero-padded to
exactly two digits, joined by a dot, with the fixed `.in` / `.out`
suffixes; for larger admissible indices the number is rendered with three
digits instead. -/
theorem namers_two_digit_form (s t g : Nat) (hs : s < 99) (ht : t < 99) :
    Constants.input_namer s t g =
      twoDigitString (s + 1) ++ "." ++ twoDigitString (t + 1) ++ ".in" ∧
    Constants.output_namer s t g =
      twoDigitString (s + 1) ++ "." ++ twoDigitString (t + 1) ++ ".out" := by
  have key : ∀ n : Nat, n < 100 → fmt02d n = twoDigitString n := by decide
  constructor
  · simp only [Constants.input_namer]
    rw [key (s + 1) (by omega), key (t + 1) (by omega)]
  · simp only [Constants.output_namer]
    rw [key (s + 1) (by omega), key (t + 1) (by omega)]

/-- C10, witness: the first subtask's first testcase is named
`01.01.in` / `01.01.out`. -/
theorem namers_two_digit_form_witness :
    (0 : Nat) < 99 ∧
    (Constants.input_namer 0 0 0 =
      twoDigitString 1 ++ "." ++ twoDigitString 1 ++ ".in" ∧
     Constants.output_namer 0 0 0 =
      twoDigitString 1 ++ "." ++ twoDigitString 1 ++ ".out") :=
  ⟨by decide, namers_two_digit_form 0 0 0 (by decide) (by decide)⟩

/-- C8.  In post-generation audit mode the docstrings of `assert_testcase`
and `assert_task_params` promise that the testcase's `input` / `output`
paths are verified to exist inside the generation directory, but the code
passes `base_dir=task_dir`: on a generation directory that contains neither
file, validation of the testcase nevertheless succeeds because the files
exist under the task directory. -/
theorem assert_testcase_postgen_uses_task_dir :
    Validator.assert_testcase fsAudit pAudit 0 0 0 "/task" (some "/task/auto.gen") =
      Except.ok () ∧
    fsAudit.isfile (ospathJoin "/task/auto.gen" "data.in") = false ∧
    fsAudit.isfile (ospathJoin "/task/auto.gen" "data.out") = false := by
  refine ⟨rfl, by decide, by decide⟩

/-- Reducing the bind of an already successful step. -/
theorem ok_bind {α β : Type} (a : α) (f : α → Except String β) :
    (Except.ok a >>= f : Except String β) = f a := rfl

/-- Reducing the bind of an already failed step. -/
theorem error_bind {α β : Type} (e : String) (f : α → Except String β) :
    (Except.error e >>= f : Except String β) = Except.error e := rfl

/-- C9.  For a subtask at 0-based index `i` whose description carries a
`contains` entry, successful validation forces `contains` to be a list of
at most `i` integers, each between 1 and `i` inclusive — every referenced
1-based index is strictly below the subtask's own 1-based index `i + 1`.
In particular a `contains` list referencing the subtask's own index or a
later one makes validation fail. -/
theorem assert_subtask_contains_necessary (fs : FS) (p : VParams)
    (i acc : Nat) (td : String) (gd : Option String) (st : RawSubtask)
    (cs : PyVal) (n : Nat)
    (hst : p.subtasks.get? i = some st) (hcs : st.contains = some cs)
    (hok : Validator.assert_subtask fs p i acc td gd = Except.ok n) :
    ∃ l, cs = PyVal.list l ∧ l.length ≤ i ∧
      ∀ x ∈ l, ∃ m : Int, pyIntVal x = some m ∧ 1 ≤ m ∧ m ≤ (i : Int) := by
  have hst2 : p.subtasks[i]? = some st := by
    rw [← List.get?_eq_getElem?]; exact hst
  cases hsc : st.score with
  | none =>
    simp [Validator.assert_subtask, getIndex, hst2, hsc, ok_bind, error_bind] at hok
  | some sc =>
    by_cases hnum : Validator.number sc false (some Constants.min_subtask_score)
        (some Constants.max_subtask_score) = true
    · by_cases hnl : Validator.numbers_list cs Option.none (some i)
          (some 1) (some (i : Rat)) = true
      · clear hok
        cases cs with
        | list l =>
          simp [Validator.numbers_list, Validator.list, pyListVal,
                List.all_eq_true] at hnl
          refine ⟨l, rfl, hnl.1, ?_⟩
          intro x hx
          have hnx := hnl.2 x hx
          cases x with
          | int m =>
            simp [Validator.number, pyNumVal] at hnx
            exact ⟨m, rfl, by exact_mod_cast hnx.1, by exact_mod_cast hnx.2⟩
          | bool b =>
            cases b with
            | true =>
              simp [Validator.number, pyNumVal] at hnx
              refine ⟨1, rfl, le_refl 1, ?_⟩
              exact_mod_cast hnx
            | false =>
              simp [Validator.number, pyNumVal] at hnx
              exact absurd hnx (by norm_num)
          | float q => simp [Validator.number] at hnx
          | none => simp [Validator.number] at hnx
          | str s2 => simp [Validator.number] at hnx
          | list xs2 => simp [Validator.number] at hnx
          | dict entries => simp [Validator.number] at hnx
        | none => simp [Validator.numbers_list, Validator.list] at hnl
        | bool b => simp [Validator.numbers_list, Validator.list] at hnl
        | int m => simp [Validator.numbers_list, Validator.list] at hnl
        | float q => simp [Validator.numbers_list, Validator.list] at hnl
        | str s2 => simp [Validator.numbers_list, Validator.list] at hnl
        | dict entries => simp [Validator.numbers_list, Validator.list] at hnl
      · simp [Validator.assert_subtask, getIndex, hst2, hsc, hcs,
              assertValueNumber, hnum, assertValueNumbersList, hnl,
              ok_bind, error_bind] at hok
    · simp [Validator.assert_subtask, getIndex, hst2, hsc,
            assertValueNumber, hnum, ok_bind, error_bind] at hok

/-- C9, witness: subtask index 1 with `contains = [1]` validates, and the
reference 1 is an integer in `[1, 1]`. -/
theorem assert_subtask_contains_necessary_witness :
    pContains.subtasks.get? 1 = some stContains ∧
    stContains.contains = some (PyVal.list [PyVal.int 1]) ∧
    (∃ l, PyVal.list [PyVal.int 1] = PyVal.list l ∧ l.length ≤ 1 ∧
      ∀ x ∈ l, ∃ m : Int, pyIntVal x = some m ∧ 1 ≤ m ∧ m ≤ (1 : Int)) :=
  ⟨rfl, rfl,
    assert_subtask_contains_necessary fsEmpty pContains 1 0 "/t" Option.none
      stContains (PyVal.list [PyVal.int 1]) 1 rfl rfl rfl⟩

/-- The loop of the serializer realizes the specification subtask by
subtask: the running accumulator equals the sum of the counts of the
preceding subtasks. -/
theorem safeSubtasksLoop_spec (existing : Bool) (inN outN : Namer)
    (base : String) (sts : List SSubtask) :
    ∀ (sIdx acc : Nat),
      (∀ st ∈ sts, (subtaskCount existing st).isSome = true) →
      ∃ out, safeSubtasksLoop existing inN outN base sts sIdx acc = some out ∧
        out.length = sts.length ∧
        ∀ i st, sts.get? i = some st →
          out.get? i = some (mkSafeSubtask existing inN outN base (sIdx + i)
            (acc + ((sts.take i).map
              (fun s2 => (subtaskCount existing s2).getD 0)).sum) st) := by
  induction sts with
  | nil =>
    intro sIdx acc _
    exact ⟨[], rfl, rfl, by intro i st hi; simp at hi⟩
  | cons st rest ih =>
    intro sIdx acc h
    obtain ⟨num, hnum⟩ :=
      Option.isSome_iff_exists.mp (h st (List.mem_cons_self _ _))
    obtain ⟨out, hout, hlen, hget⟩ :=
      ih (sIdx + 1) (acc + num) (fun s2 hs2 => h s2 (List.mem_cons_of_mem _ hs2))
    refine ⟨{ score := st.score,
              testcases := (List.range num).map (fun j =>
                (ospathJoin base (inN sIdx j (acc + j)),
                 ospathJoin base (outN sIdx j (acc + j)))),
              num_testcases := num,
              contains := st.contains.getD (PyVal.list []) } :: out, ?_, ?_, ?_⟩
    · simp [safeSubtasksLoop, hnum, hout]
    · simp [hlen]
    · intro i st2 hi
      cases i with
      | zero =>
        simp only [List.get?] at hi
        cases hi
        simp [mkSafeSubtask, hnum]
      | succ j =>
        simp only [List.get?] at hi
        have hj := hget j st2 hi
        simp only [List.get?]
        rw [hj]
        have harith1 : sIdx + 1 + j = sIdx + (j + 1) := by omega
        have harith2 :
            acc + num + ((rest.take j).map
              (fun s2 => (subtaskCount existing s2).getD 0)).sum =
            acc + (((st :: rest).take (j + 1)).map
              (fun s2 => (subtaskCount existing s2).getD 0)).sum := by
          simp [List.take_succ_cons, hnum]
          omega
        rw [harith1, harith2]

/-- C7.  The safe serializer's output equals the validated parameters except
for the claimed rewrites: every top-level entry other than
`existing_testcases_format` and `subtasks` is carried over unchanged;
`existing_testcases_format`, when present, becomes the boolean `True`; each
subtask keeps its score, carries its testcase count as `num_testcases` and
its `contains` entry defaulting to the empty list, and its `testcases`
entry becomes the list of `(input, output)` path pairs obtained by invoking
the active naming strategy — the configured one in existing-testcases mode,
the default zero-padded one otherwise — at consecutive global testcase
indices, rooted at the task directory in existing-testcases mode and at the
generation directory otherwise. -/
theorem getSafeParams_spec (p : SParams) (task_dir gen_dir : String)
    (h : ∀ st ∈ p.subtasks,
      (subtaskCount p.existing_testcases_format.isSome st).isSome = true) :
    ∃ sp, TaskProcessor.getSafeParams p task_dir gen_dir = some sp ∧
      sp.extra = p.extra ∧
      sp.existing_testcases_format =
        (if p.existing_testcases_format.isSome then some true else Option.none) ∧
      sp.subtasks.length = p.subtasks.length ∧
      ∀ i st, p.subtasks.get? i = some st →
        sp.subtasks.get? i = some (mkSafeSubtask p.existing_testcases_format.isSome
          (activeInputNamer p) (activeOutputNamer p)
          (if p.existing_testcases_format.isSome then task_dir else gen_dir)
          i (((p.subtasks.take i).map
            (fun s2 => (subtaskCount p.existing_testcases_format.isSome s2).getD 0)).sum)
          st) := by
  obtain ⟨out, hout, hlen, hget⟩ :=
    safeSubtasksLoop_spec p.existing_testcases_format.isSome
      (activeInputNamer p) (activeOutputNamer p)
      (if p.existing_testcases_format.isSome then task_dir else gen_dir)
      p.subtasks 0 0 h
  refine ⟨{ existing_testcases_format :=
              if p.existing_testcases_format.isSome then some true else Option.none,
            subtasks := out, extra := p.extra }, ?_, rfl, rfl, hlen, ?_⟩
  · simp [TaskProcessor.getSafeParams, hout]
  · intro i st hi
    simpa using hget i st hi

/-- C7, witness: for a one-subtask authoring-mode parameter set the
serializer succeeds and its output matches the predicted shape. -/
theorem getSafeParams_spec_witness :
    (∀ st ∈ pSerial.subtasks,
      (subtaskCount pSerial.existing_testcases_format.isSome st).isSome = true) ∧
    (∃ sp, TaskProcessor.getSafeParams pSerial "/t" "/g" = some sp ∧
      sp.extra = pSerial.extra ∧
      sp.existing_testcases_format =
        (if pSerial.existing_testcases_format.isSome then some true
         else Option.none) ∧
      sp.subtasks.length = pSerial.subtasks.length ∧
      ∀ i st, pSerial.subtasks.get? i = some st →
        sp.subtasks.get? i = some (mkSafeSubtask
          pSerial.existing_testcases_format.isSome
          (activeInputNamer pSerial) (activeOutputNamer pSerial)
          (if pSerial.existing_testcases_format.isSome then "/t" else "/g")
          i (((pSerial.subtasks.take i).map
            (fun s2 =>
              (subtaskCount pSerial.existing_testcases_format.isSome s2).getD 0)).sum)
          st)) :=
  ⟨by decide, getSafeParams_spec pSerial "/t" "/g" (by decide)⟩
